import Mathlib

/-!
Shallow embedding of the server-side mutation and authentication logic of the
dashboard application (src/app/lib/actions.ts, src/auth.config.ts), together
with theorems settling the specification claims about it.

Modelling conventions:
* Form data (`FormData.get`) yields `Option String` (`none` = the field is absent).
* JavaScript numbers produced by the `z.coerce.number()` coercion are idealised
  as exact rationals (`ℚ`); `none` stands for NaN.  The coercion is modelled on
  the fragment of optionally signed decimal numerals (no exponents, hex or
  infinity forms) that the claims exercise.
* The database is external: each handler takes the outcome of its single
  statement as a parameter (`DbOutcome`), and the statement it issues, the
  cache invalidations and the redirect it performs are recorded in its output.
* `redirect` and `revalidatePath` are effects; they are recorded, not executed.
-/

deriving instance DecidableEq for Except

/-! ## JavaScript numeric coercion (`Number(...)`, used by `z.coerce.number()`) -/

/-- Numeric value of a decimal digit character, `none` on a non-digit. -/
def charDigit (c : Char) : Option ℕ :=
  if '0' ≤ c ∧ c ≤ '9' then some (c.toNat - 48) else none

/-- Digit values of a character list, `none` when some character is not a digit. -/
def digitsOf (cs : List Char) : Option (List ℕ) :=
  cs.mapM charDigit

/-- Value of a big-endian digit list. -/
def natOfDigits (l : List ℕ) : ℕ :=
  l.foldl (fun a d => 10 * a + d) 0

/-- Value of an unsigned decimal numeral `digits [ "." digits ]`
(at least one digit overall), as an exact rational; `none` = NaN.
The numeral `ip.fp` denotes `(ip ++ fp) / 10 ^ |fp|`. -/
def decimalValue (cs : List Char) : Option ℚ :=
  let ip := cs.takeWhile (fun c => c ≠ '.')
  let rest := cs.dropWhile (fun c => c ≠ '.')
  match rest with
  | [] =>
    match digitsOf ip with
    | some d => if ip.isEmpty then none else some (mkRat (natOfDigits d) 1)
    | none => none
  | _ :: fp =>
    match digitsOf ip, digitsOf fp with
    | some di, some df =>
      if ip.isEmpty ∧ fp.isEmpty then none
      else some (mkRat (natOfDigits (di ++ df)) (10 ^ fp.length))
    | _, _ => none

/-- Models the JavaScript `Number(...)` coercion applied by `z.coerce.number()`
to a form value: `Number(null) = 0`, `Number("") = 0`, optionally signed decimal
numerals take their exact value, anything else in the modelled fragment is NaN
(`none`). -/
def jsNumber : Option String → Option ℚ
  | none => some 0
  | some s =>
    match s.toList with
    | [] => some 0
    | '-' :: cs => (decimalValue cs).map (fun q => -q)
    | '+' :: cs => decimalValue cs
    | cs => decimalValue cs

/-! ## The invoice form schema (`FormSchema`, actions.ts lines 13–22)

`FormSchema.omit({id, date})` leaves three fields: `customerId` (string with a
custom invalid-type message), `amount` (`z.coerce.number().gt(0, …)`) and
`status` (`z.enum(['pending','paid'], …)`).  `safeParse` runs every field check
and collects the error messages of all failing fields together. -/

def msgSelectCustomer : String := "Please select a customer."
def msgAmountGtZero : String := "Please enter an amount greater than $0."
def msgSelectStatus : String := "Please select an invoice status."
def msgNanAmount : String := "Expected number, received nan"
def msgInvalidEnum : String := "Invalid enum value"

/-- A raw create/update invoice submission, as read off `FormData`. -/
structure InvoiceForm where
  customerId : Option String
  amount : Option String
  status : Option String
deriving DecidableEq

/-- The typed value set produced by a successful invoice-form validation. -/
structure InvoiceData where
  customerId : String
  amount : ℚ
  status : String
deriving DecidableEq

/-- The flattened field-error mapping (`error.flatten().fieldErrors`) of a
failed invoice-form validation; an empty list means the field has no entry. -/
structure InvoiceFieldErrors where
  customerId : List String
  amount : List String
  status : List String
deriving DecidableEq

/-- Field `customerId: z.string({invalid_type_error: 'Please select a customer.'})`:
a missing value (null) is an invalid type; any string passes. -/
def parseCustomerId : Option String → Except (List String) String
  | none => .error [msgSelectCustomer]
  | some s => .ok s

/-- Field `amount: z.coerce.number().gt(0, …)`: the value is coerced with
`Number(...)`; NaN is an invalid type, otherwise the coerced number must be
strictly greater than zero. -/
def parseAmount (v : Option String) : Except (List String) ℚ :=
  match jsNumber v with
  | none => .error [msgNanAmount]
  | some a => if 0 < a then .ok a else .error [msgAmountGtZero]

/-- Field `status: z.enum(['pending','paid'], {invalid_type_error: …})`: a missing
value is an invalid type (custom message); a string outside the closed set is
an invalid enum value (library default message). -/
def parseStatus : Option String → Except (List String) String
  | none => .error [msgSelectStatus]
  | some s =>
    if s = "pending" ∨ s = "paid" then .ok s else .error [msgInvalidEnum]

/-- Error list carried by a field result (empty on success). -/
def errsOf {α : Type} : Except (List String) α → List String
  | .error e => e
  | .ok _ => []

/-- Embeds `FormSchema.omit({id: true, date: true}).safeParse`: every field is
checked and the failures of all fields are collected together. -/
def formSchemaOmitIdDate (f : InvoiceForm) : Except InvoiceFieldErrors InvoiceData :=
  match parseCustomerId f.customerId, parseAmount f.amount, parseStatus f.status with
  | .ok c, .ok a, .ok s => .ok ⟨c, a, s⟩
  | rc, ra, rs => .error ⟨errsOf rc, errsOf ra, errsOf rs⟩

/-- Embeds `const CreateInvoice = FormSchema.omit({ id: true, date: true })` (line 21). -/
def CreateInvoice : InvoiceForm → Except InvoiceFieldErrors InvoiceData :=
  formSchemaOmitIdDate

/-- Embeds `const UpdateInvoice = FormSchema.omit({ id: true, date: true })` (line 22). -/
def UpdateInvoice : InvoiceForm → Except InvoiceFieldErrors InvoiceData :=
  formSchemaOmitIdDate

/-! ## Mutation handlers (actions.ts lines 33–106) -/

/-- Outcome of the single awaited database statement of a handler:
it either succeeds or throws with an error text. -/
inductive DbOutcome
  | ok
  | err (e : String)
deriving DecidableEq

/-- The parameterized statements the handlers can issue. -/
inductive SqlStatement
  | insertInvoice (customerId : String) (amount : ℚ) (status : String) (date : String)
  | updateInvoice (id : String) (customerId : String) (amount : ℚ) (status : String)
  | deleteInvoice (id : String)
  | insertUser (name : String) (email : String) (password : String)
deriving DecidableEq

/-- The monetary amount a statement carries, when it carries one. -/
def stmtAmount : SqlStatement → Option ℚ
  | .insertInvoice _ a _ _ => some a
  | .updateInvoice _ _ a _ => some a
  | _ => none

/-- Observable outcome of one run of `createInvoice` / `updateInvoice`:
the returned `State` (field errors and message) plus the recorded effects —
statements issued, paths passed to `revalidatePath`, and the redirect target. -/
structure MutationOutput where
  errors : Option InvoiceFieldErrors
  message : Option String
  statements : List SqlStatement
  revalidated : List String
  redirectedTo : Option String
deriving DecidableEq

/-- Embeds `createInvoice` (lines 33–64): validate with `CreateInvoice`; on failure
return the field errors and a message with no effect; otherwise insert
`(customerId, amount*100, status, today)`; on a statement error return a
message embedding the error text; on success revalidate and redirect to
`/dashboard/invoices`. `today` stands for `new Date().toISOString().split('T')[0]`. -/
def createInvoice (today : String) (f : InvoiceForm) (db : DbOutcome) : MutationOutput :=
  match CreateInvoice f with
  | .error errs =>
    { errors := some errs
      message := some "Missing Fields. Failed to Create Invoice."
      statements := []
      revalidated := []
      redirectedTo := none }
  | .ok data =>
    let amountInCents := data.amount * 100
    let stmt := SqlStatement.insertInvoice data.customerId amountInCents data.status today
    match db with
    | .err e =>
      { errors := none
        message := some ("Failed to Create Invoice. Database error: " ++ e)
        statements := [stmt]
        revalidated := []
        redirectedTo := none }
    | .ok =>
      { errors := none
        message := none
        statements := [stmt]
        revalidated := ["/dashboard/invoices"]
        redirectedTo := some "/dashboard/invoices" }

/-- Embeds `updateInvoice` (lines 66–96): same shape as `createInvoice`, with an
`UPDATE … WHERE id = ${id}` statement and an update-flavoured message. -/
def updateInvoice (id : String) (f : InvoiceForm) (db : DbOutcome) : MutationOutput :=
  match UpdateInvoice f with
  | .error errs =>
    { errors := some errs
      message := some "Missing Fields. Failed to Update Invoice."
      statements := []
      revalidated := []
      redirectedTo := none }
  | .ok data =>
    let amountInCents := data.amount * 100
    let stmt := SqlStatement.updateInvoice id data.customerId amountInCents data.status
    match db with
    | .err e =>
      { errors := none
        message := some ("Failed to Update Invoice. Database error: " ++ e)
        statements := [stmt]
        revalidated := []
        redirectedTo := none }
    | .ok =>
      { errors := none
        message := none
        statements := [stmt]
        revalidated := ["/dashboard/invoices"]
        redirectedTo := some "/dashboard/invoices" }

/-- Observable outcome of one run of `deleteInvoice`: `result` is the raw
return value of the function — a plain message string on a statement error,
`undefined` (`none`) otherwise — plus the recorded effects. -/
structure DeleteOutput where
  result : Option String
  statements : List SqlStatement
  revalidated : List String
  redirectedTo : Option String
deriving DecidableEq

/-- Embeds `deleteInvoice` (lines 98–106): no validation; always issue the single
`DELETE` statement; on a statement error return a plain string and stop;
on success revalidate the listing and return nothing (no redirect). -/
def deleteInvoice (id : String) (db : DbOutcome) : DeleteOutput :=
  match db with
  | .err e =>
    { result := some ("Failed to Delete Invoice. Database error: " ++ e)
      statements := [SqlStatement.deleteInvoice id]
      revalidated := []
      redirectedTo := none }
  | .ok =>
    { result := none
      statements := [SqlStatement.deleteInvoice id]
      revalidated := ["/dashboard/invoices"]
      redirectedTo := none }

/-! ## Route authorization (`authorized`, auth.config.ts lines 31–41) -/

/-- The JavaScript `String.prototype.startsWith` check: `p` is a prefix of `s`. -/
def jsStartsWith (s p : String) : Bool :=
  p.toList.isPrefixOf s.toList

/-- What the `authorized` callback does with a request: let it through,
refuse it, or answer with a `Response.redirect` to a URL. -/
inductive AuthzResult
  | allow
  | deny
  | redirectTo (url : String)
deriving DecidableEq

/-- Embeds `authorized({auth, request})`: with `isLoggedIn = !!auth?.user` and
`isOnDashboard = nextUrl.pathname.startsWith('/dashboard')` — on a dashboard
path, allow when logged in and deny otherwise; off the dashboard, redirect a
logged-in session to `/dashboard` and allow everyone else. -/
def authorized (isLoggedIn : Bool) (pathname : String) : AuthzResult :=
  let isOnDashboard := jsStartsWith pathname "/dashboard"
  if isOnDashboard then
    if isLoggedIn then .allow else .deny
  else if isLoggedIn then .redirectTo "/dashboard"
  else .allow

/-! ## User lookup and the credentials provider (auth.config.ts lines 14–68) -/

/-- A row of the `users` table as the credentials provider reads it. -/
structure UserRec where
  name : String
  email : String
  password : String
deriving DecidableEq

/-- State of the `users` store at lookup time: either the table contents, or a
failing store whose query throws. -/
inductive DbState
  | ok (users : List UserRec)
  | failing (e : String)
deriving DecidableEq

/-- Rows returned by `SELECT * FROM users WHERE email=${email}`. -/
def usersWithEmail (users : List UserRec) (email : String) : List UserRec :=
  users.filter (fun u => u.email = email)

/-- Embeds `getUser` (lines 14–22): run the query and return its first row
(`user[0]`, i.e. `undefined` when there is none); when the query throws,
catch, log and return `undefined`. -/
def getUser (db : DbState) (email : String) : Option UserRec :=
  match db with
  | .failing _ => none
  | .ok users => (usersWithEmail users email).head?

/-- Models the zod `z.string().email()` format check on the fragment the
claims exercise: a non-empty local part, a single at sign, and a non-empty
domain containing a dot. -/
def isValidEmail (s : String) : Bool :=
  let cs := s.toList
  let localPart := cs.takeWhile (fun c => c ≠ '@')
  let rest := cs.dropWhile (fun c => c ≠ '@')
  match rest with
  | _ :: domain =>
    decide (localPart ≠ [] ∧ domain ≠ [] ∧ ¬ domain.contains '@' ∧ domain.contains '.')
  | [] => false

/-- Modelled from the spec: `signInSchema` is imported from `./lib/zod`, which
is not among the source files; per §4.3 the credential check validates a
well-formed email address together with the submitted password. -/
def signInSchemaParse (email password : Option String) : Option (String × String) :=
  match email, password with
  | some e, some p => if isValidEmail e then some (e, p) else none
  | _, _ => none

/-- The credentials provider's `authorize` callback (lines 51–68): parse the
credentials with `signInSchema`; on success look the user up by email and
compare the submitted password with the stored hash (`bcrypt.compare` is the
abstract `compare` parameter); in every failing case return no user (`null`). -/
def authorizeUser (db : DbState) (compare : String → String → Bool)
    (email password : Option String) : Option UserRec :=
  match signInSchemaParse email password with
  | some (e, p) =>
    match getUser db e with
    | none => none
    | some user => if compare p user.password then some user else none
  | none => none

/-! ## `authenticate` (actions.ts lines 108–143) -/

/-- An error thrown by the awaited `signIn` call: an `AuthError` carrying its
`type` tag, or any other thrown value. -/
inductive JsError
  | authError (t : String)
  | other (e : String)
deriving DecidableEq

/-- Modelled from the spec: the identity library's credential sign-in — when
the provider's `authorize` callback yields no user the call throws an
`AuthError` of type `CredentialsSignin`, otherwise it succeeds. -/
def signInCredentials (db : DbState) (compare : String → String → Bool)
    (email password : Option String) : Option JsError :=
  match authorizeUser db compare email password with
  | some _ => none
  | none => some (JsError.authError "CredentialsSignin")

/-- The `authenticateState` shape returned by `authenticate`. -/
structure AuthState where
  message : Option String
  email : Option String
deriving DecidableEq

/-- How one run of `authenticate` ends: a normal return (of `undefined` or of
an `authenticateState`), or a rethrown error. -/
inductive AuthenticateResult
  | returns (s : Option AuthState)
  | throws (e : JsError)
deriving DecidableEq

/-- Embeds `z.string().email().safeParse(formData.get('email'))`: a missing value or a
malformed address fails, a well-formed address parses to itself. -/
def parseEmailField : Option String → Option String
  | none => none
  | some s => if isValidEmail s then some s else none

/-- The raw sign-in submission, as read off `FormData`. -/
structure AuthForm where
  email : Option String
  password : Option String
deriving DecidableEq

/-- Embeds `authenticate` (lines 113–143) given the outcome of the awaited `signIn`
call: on success return `undefined`; on a thrown error, first re-validate the
submitted email — a malformed one yields the invalid-email state — then map an
`AuthError` of type `CredentialsSignin` to the invalid-credentials state, any
other `AuthError` to the valid-credentials-but-failed state, and rethrow
everything else. -/
def authenticate (signInOutcome : Option JsError) (f : AuthForm) : AuthenticateResult :=
  match signInOutcome with
  | none => .returns none
  | some error =>
    match parseEmailField f.email with
    | none => .returns (some { message := some "Invalid email", email := none })
    | some userEmail =>
      match error with
      | .authError t =>
        if t = "CredentialsSignin" then
          .returns (some { message := some "Invalid credentials", email := some userEmail })
        else
          .returns (some { message := some "Valid credentials, but failed to authenticate"
                           email := some userEmail })
      | .other e => .throws (.other e)

/-- One full run of `authenticate` against the credentials provider: the
`signIn` outcome is computed from the provider pipeline over the given store. -/
def runAuthenticate (db : DbState) (compare : String → String → Bool)
    (f : AuthForm) : AuthenticateResult :=
  authenticate (signInCredentials db compare f.email f.password) f

/-! ## Registration (`credSchema` and `addUser`, actions.ts lines 153–214)

`credSchema` chains per-field checks: every check of a field runs and its
failures are collected, the failures of all fields are collected together, and
the cross-field `.refine` (password equality, attached to `confirmPassword`)
runs only when the base object — every field — parsed successfully, which is
zod's semantics for refinements over objects. -/

def msgUserMin : String := "Username must be at least 3 characters long"
def msgUserMax : String := "Username cannot exceed 20 characters"
def msgBadEmail : String := "Invalid email address"
def msgPwMin : String := "Password must be at least 8 characters long"
def msgPwUpper : String := "Password must contain at least one uppercase letter"
def msgPwLower : String := "Password must contain at least one lowercase letter"
def msgPwDigit : String := "Password must contain at least one number"
def msgPwSpecial : String := "Password must contain at least one special character"
def msgPwMismatch : String := "Passwords do not match"
def msgExpectedString : String := "Expected string, received null"

/-- Field `username: z.string().min(3,…).max(20,…)`: both checks run, in order. -/
def usernameChecks (s : String) : List String :=
  (if s.length < 3 then [msgUserMin] else [])
    ++ (if 20 < s.length then [msgUserMax] else [])

/-- Field `email: z.string().email(…)`. -/
def emailChecks (s : String) : List String :=
  if isValidEmail s then [] else [msgBadEmail]

/-- Checks `z.string().min(8,…).regex(/[A-Z]/,…).regex(/[a-z]/,…).regex(/[0-9]/,…)
.regex(/[^a-zA-Z0-9]/,…)`: all five checks run, in order, and each regex asks
for at least one character of its class. -/
def passwordChecks (s : String) : List String :=
  (if s.length < 8 then [msgPwMin] else [])
    ++ (if s.toList.any (fun c => 'A' ≤ c ∧ c ≤ 'Z') then [] else [msgPwUpper])
    ++ (if s.toList.any (fun c => 'a' ≤ c ∧ c ≤ 'z') then [] else [msgPwLower])
    ++ (if s.toList.any (fun c => '0' ≤ c ∧ c ≤ '9') then [] else [msgPwDigit])
    ++ (if s.toList.any (fun c =>
          ¬ (('a' ≤ c ∧ c ≤ 'z') ∨ ('A' ≤ c ∧ c ≤ 'Z') ∨ ('0' ≤ c ∧ c ≤ '9')))
        then [] else [msgPwSpecial])

/-- A string field of the registration form: a missing value (null) is an
invalid type, otherwise the field's checks all run and their failures are
collected. -/
def fieldParse (checks : String → List String) : Option String → Except (List String) String
  | none => .error [msgExpectedString]
  | some s =>
    match checks s with
    | [] => .ok s
    | e => .error e

/-- The failures a field contributes to the flattened mapping. -/
def fieldErrsOf (checks : String → List String) (v : Option String) : List String :=
  errsOf (fieldParse checks v)

/-- A raw registration submission, as read off `FormData`. -/
structure CredForm where
  username : Option String
  email : Option String
  password : Option String
  confirmPassword : Option String
deriving DecidableEq

/-- The typed value set of a successful registration validation. -/
structure CredData where
  username : String
  email : String
  password : String
  confirmPassword : String
deriving DecidableEq

/-- The flattened field-error mapping of a failed registration validation;
an empty list means the field has no entry. -/
structure CredFieldErrors where
  username : List String
  email : List String
  password : List String
  confirmPassword : List String
deriving DecidableEq

/-- The base object of `credSchema` (lines 163–183, before the `.refine`):
parse the four fields, collecting the failures of all of them together. -/
def credBase (f : CredForm) : Except CredFieldErrors CredData :=
  match fieldParse usernameChecks f.username, fieldParse emailChecks f.email,
      fieldParse passwordChecks f.password, fieldParse passwordChecks f.confirmPassword with
  | .ok u, .ok e, .ok p, .ok c => .ok ⟨u, e, p, c⟩
  | ru, re, rp, rc => .error ⟨errsOf ru, errsOf re, errsOf rp, errsOf rc⟩

/-- Embeds `credSchema.safeParse` (lines 163–187): parse the base object; when it
succeeds, run the `.refine` — equal passwords — whose failure is attached to
`confirmPassword`; when the base object fails, the refinement does not run
(zod refinements run only on a successful base parse). -/
def credSchema (f : CredForm) : Except CredFieldErrors CredData :=
  match credBase f with
  | .ok d =>
    if d.password = d.confirmPassword then .ok d
    else .error ⟨[], [], [], [msgPwMismatch]⟩
  | .error e => .error e

/-- Observable outcome of one run of `addUser`: the returned `credState`
(field errors or message), plus the recorded effects. -/
structure AddUserOutput where
  errors : Option CredFieldErrors
  message : Option String
  statements : List SqlStatement
  redirectedTo : Option String
deriving DecidableEq

/-- Embeds `addUser` (lines 189–214): validate with `credSchema`; on failure return
the field errors (no message, no effect); otherwise hash the password
(`bcrypt.hash` is the abstract `hash` parameter) and insert the user; on a
statement error return a message embedding the error text; on success redirect
to `/login` (no cache invalidation). -/
def addUser (hash : String → String) (f : CredForm) (db : DbOutcome) : AddUserOutput :=
  match credSchema f with
  | .error errs =>
    { errors := some errs
      message := none
      statements := []
      redirectedTo := none }
  | .ok data =>
    let hashedPassword := hash data.password
    let stmt := SqlStatement.insertUser data.username data.email hashedPassword
    match db with
    | .err e =>
      { errors := none
        message := some ("Failed to insert new user. Database error: " ++ e)
        statements := [stmt]
        redirectedTo := none }
    | .ok =>
      { errors := none
        message := none
        statements := [stmt]
        redirectedTo := some "/login" }

/-! ## Helper lemmas -/

theorem parseAmount_ok_pos {v : Option String} {a : ℚ}
    (h : parseAmount v = Except.ok a) : 0 < a := by
  unfold parseAmount at h
  cases hj : jsNumber v with
  | none => rw [hj] at h; exact absurd h (by simp)
  | some b =>
    rw [hj] at h
    by_cases hb : 0 < b
    · simp only [if_pos hb, Except.ok.injEq] at h
      exact h ▸ hb
    · simp [if_neg hb] at h

theorem formSchema_ok_amount {f : InvoiceForm} {d : InvoiceData}
    (h : formSchemaOmitIdDate f = Except.ok d) :
    parseAmount f.amount = Except.ok d.amount := by
  unfold formSchemaOmitIdDate at h
  cases hc : parseCustomerId f.customerId <;> rw [hc] at h <;>
    cases ha : parseAmount f.amount <;> rw [ha] at h <;>
      cases hs : parseStatus f.status <;> rw [hs] at h <;>
        first
          | exact Except.noConfusion h
          | (injection h with h2; subst h2; rfl)

theorem formSchema_amount_error {f : InvoiceForm} {e : List String}
    (h : parseAmount f.amount = Except.error e) :
    formSchemaOmitIdDate f
      = Except.error
          ⟨errsOf (parseCustomerId f.customerId), e, errsOf (parseStatus f.status)⟩ := by
  unfold formSchemaOmitIdDate
  cases hc : parseCustomerId f.customerId <;> cases hs : parseStatus f.status <;>
    simp [hc, hs, h, errsOf]

/-! ## Claims -/

/-- C1 (counterexample): the submission `customerId="c1"`, `amount="0.005"`,
`status="pending"` passes validation, and the amount passed to the insert
statement is `0.005 * 100 = 1/2` currency subunits — not an integer (its
reduced denominator is 2, and it equals no integer), refuting the claim that
every stored amount is a non-negative integer number of subunits. -/
theorem C1_counterexample :
    ((createInvoice "2024-10-12" ⟨some "c1", some "0.005", some "pending"⟩
        DbOutcome.ok).statements.map stmtAmount = [some (mkRat 1 2)])
    ∧ (mkRat 1 2 : ℚ).den ≠ 1
    ∧ ¬ ∃ n : ℤ, (mkRat 1 2 : ℚ) = (n : ℚ) := by
  refine ⟨?_, by decide, ?_⟩
  · have h2 : (createInvoice "2024-10-12" ⟨some "c1", some "0.005", some "pending"⟩
        DbOutcome.ok).statements
        = [SqlStatement.insertInvoice "c1" (mkRat 1 200 * 100) "pending" "2024-10-12"] := rfl
    rw [h2]
    simp only [List.map_cons, List.map_nil, stmtAmount]
    norm_num [Rat.mkRat_eq_div]
  · rintro ⟨n, hn⟩
    have hd : (mkRat 1 2 : ℚ).den = 1 := by rw [hn]; exact Rat.den_intCast n
    exact absurd hd (by decide)

/-- C1 (amended): for every invoice create or update run, every monetary
amount a storage statement carries is positive (hence non-negative) and equals
the validated positive decimal amount scaled by 100; it need not be an
integer number of subunits. -/
theorem C1_amount_scaled (today id : String) (f : InvoiceForm) (db : DbOutcome)
    (s : SqlStatement) (a : ℚ)
    (hs : s ∈ (createInvoice today f db).statements
      ∨ s ∈ (updateInvoice id f db).statements)
    (ha : stmtAmount s = some a) :
    0 < a ∧ ∃ q : ℚ, parseAmount f.amount = Except.ok q ∧ 0 < q ∧ a = q * 100 := by
  have main : ∀ d : InvoiceData, formSchemaOmitIdDate f = Except.ok d →
      a = d.amount * 100 →
      0 < a ∧ ∃ q : ℚ, parseAmount f.amount = Except.ok q ∧ 0 < q ∧ a = q * 100 := by
    intro d hd haeq
    have hpa := formSchema_ok_amount hd
    have hpos := parseAmount_ok_pos hpa
    refine ⟨?_, d.amount, hpa, hpos, haeq⟩
    rw [haeq]
    positivity
  rcases hs with hmem | hmem
  · unfold createInvoice CreateInvoice at hmem
    cases hd : formSchemaOmitIdDate f with
    | error errs => rw [hd] at hmem; simp at hmem
    | ok d =>
      rw [hd] at hmem
      cases db <;> simp at hmem <;> rw [hmem] at ha <;>
        exact main d hd (by simpa [stmtAmount] using ha.symm)
  · unfold updateInvoice UpdateInvoice at hmem
    cases hd : formSchemaOmitIdDate f with
    | error errs => rw [hd] at hmem; simp at hmem
    | ok d =>
      rw [hd] at hmem
      cases db <;> simp at hmem <;> rw [hmem] at ha <;>
        exact main d hd (by simpa [stmtAmount] using ha.symm)

theorem C1_amount_scaled_witness :
    0 < (mkRat 51 2 * 100 : ℚ)
    ∧ ∃ q : ℚ, parseAmount (some "25.50") = Except.ok q ∧ 0 < q
        ∧ (mkRat 51 2 * 100 : ℚ) = q * 100 :=
  C1_amount_scaled "2024-10-12" "i1" ⟨some "c1", some "25.50", some "pending"⟩
    DbOutcome.ok
    (SqlStatement.insertInvoice "c1" (mkRat 51 2 * 100) "pending" "2024-10-12")
    (mkRat 51 2 * 100)
    (Or.inl (by
      have h : CreateInvoice ⟨some "c1", some "25.50", some "pending"⟩
          = Except.ok ⟨"c1", mkRat 51 2, "pending"⟩ := by decide
      simp [createInvoice, h]))
    rfl

/-- C2: the route-authorization predicate denies an unauthenticated request
whose path starts with the protected `/dashboard` prefix, redirects an
authenticated request on any non-protected path to `/dashboard`, and allows
every other request (authenticated on the dashboard, or unauthenticated off
it). -/
theorem C2_authorized_cases (isLoggedIn : Bool) (path : String) :
    (isLoggedIn = false → jsStartsWith path "/dashboard" = true →
      authorized isLoggedIn path = AuthzResult.deny)
    ∧ (isLoggedIn = true → jsStartsWith path "/dashboard" = false →
      authorized isLoggedIn path = AuthzResult.redirectTo "/dashboard")
    ∧ (isLoggedIn = true → jsStartsWith path "/dashboard" = true →
      authorized isLoggedIn path = AuthzResult.allow)
    ∧ (isLoggedIn = false → jsStartsWith path "/dashboard" = false →
      authorized isLoggedIn path = AuthzResult.allow) := by
  unfold authorized
  cases isLoggedIn <;> cases h : jsStartsWith path "/dashboard" <;> simp [h]

theorem C2_authorized_cases_witness :
    authorized false "/dashboard/invoices" = AuthzResult.deny
    ∧ authorized true "/login" = AuthzResult.redirectTo "/dashboard" :=
  ⟨(C2_authorized_cases false "/dashboard/invoices").1 rfl (by decide),
   (C2_authorized_cases true "/login").2.1 rfl (by decide)⟩

/-- C3: for every invoice create or update run, the cache invalidation and the
redirect happen together exactly when the run reaches storage success —
validation passed and the statement succeeded — and otherwise neither effect
happens. -/
theorem C3_effects_iff_success (today id : String) (f : InvoiceForm) (db : DbOutcome) :
    (((createInvoice today f db).revalidated, (createInvoice today f db).redirectedTo)
        = (["/dashboard/invoices"], some "/dashboard/invoices")
      ↔ (∃ d, CreateInvoice f = Except.ok d) ∧ db = DbOutcome.ok)
    ∧ (((createInvoice today f db).revalidated, (createInvoice today f db).redirectedTo)
          = (["/dashboard/invoices"], some "/dashboard/invoices")
        ∨ ((createInvoice today f db).revalidated, (createInvoice today f db).redirectedTo)
          = ([], none))
    ∧ (((updateInvoice id f db).revalidated, (updateInvoice id f db).redirectedTo)
        = (["/dashboard/invoices"], some "/dashboard/invoices")
      ↔ (∃ d, UpdateInvoice f = Except.ok d) ∧ db = DbOutcome.ok)
    ∧ (((updateInvoice id f db).revalidated, (updateInvoice id f db).redirectedTo)
          = (["/dashboard/invoices"], some "/dashboard/invoices")
        ∨ ((updateInvoice id f db).revalidated, (updateInvoice id f db).redirectedTo)
          = ([], none)) := by
  cases h : formSchemaOmitIdDate f <;> cases db <;>
    simp [createInvoice, updateInvoice, CreateInvoice, UpdateInvoice, h]

theorem C3_effects_iff_success_witness :
    ((createInvoice "2024-10-12" ⟨some "c1", some "25.50", some "pending"⟩
        DbOutcome.ok).revalidated,
     (createInvoice "2024-10-12" ⟨some "c1", some "25.50", some "pending"⟩
        DbOutcome.ok).redirectedTo)
      = (["/dashboard/invoices"], some "/dashboard/invoices") :=
  (C3_effects_iff_success "2024-10-12" "i1" ⟨some "c1", some "25.50", some "pending"⟩
    DbOutcome.ok).1.mpr ⟨⟨⟨"c1", mkRat 51 2, "pending"⟩, by decide⟩, rfl⟩

/-- C4: a create-invoice submission whose amount coerces to a number that is
not greater than zero fails validation with the amount field error, and no
storage statement is issued. -/
theorem C4_nonpositive_amount (today : String) (f : InvoiceForm) (db : DbOutcome)
    (a : ℚ) (ha : jsNumber f.amount = some a) (hle : a ≤ 0) :
    (∃ errs, (createInvoice today f db).errors = some errs
      ∧ errs.amount = [msgAmountGtZero])
    ∧ (createInvoice today f db).statements = [] := by
  have hpa : parseAmount f.amount = Except.error [msgAmountGtZero] := by
    simp only [parseAmount, ha, if_neg (not_lt.mpr hle)]
  have hv := formSchema_amount_error hpa
  simp only [createInvoice, CreateInvoice, hv]
  exact ⟨⟨_, rfl, rfl⟩, trivial⟩

theorem C4_nonpositive_amount_witness :
    (∃ errs, (createInvoice "2024-10-12" ⟨some "c1", some "-5", some "pending"⟩
        DbOutcome.ok).errors = some errs ∧ errs.amount = [msgAmountGtZero])
    ∧ (createInvoice "2024-10-12" ⟨some "c1", some "-5", some "pending"⟩
        DbOutcome.ok).statements = [] :=
  C4_nonpositive_amount "2024-10-12" ⟨some "c1", some "-5", some "pending"⟩
    DbOutcome.ok (mkRat (-5) 1) (by decide) (by decide)

/-! ## Helper lemmas for the registration schema -/

theorem credBase_error_eq {f : CredForm} {errs : CredFieldErrors}
    (h : credBase f = Except.error errs) :
    errs = ⟨fieldErrsOf usernameChecks f.username, fieldErrsOf emailChecks f.email,
            fieldErrsOf passwordChecks f.password,
            fieldErrsOf passwordChecks f.confirmPassword⟩ := by
  unfold credBase at h
  cases hu : fieldParse usernameChecks f.username <;> rw [hu] at h <;>
    cases he : fieldParse emailChecks f.email <;> rw [he] at h <;>
      cases hp : fieldParse passwordChecks f.password <;> rw [hp] at h <;>
        cases hc : fieldParse passwordChecks f.confirmPassword <;> rw [hc] at h <;>
          simp_all [fieldErrsOf, errsOf]

theorem credBase_ok_of_fields {f : CredForm} {u e p c : String}
    (hu : fieldParse usernameChecks f.username = Except.ok u)
    (he : fieldParse emailChecks f.email = Except.ok e)
    (hp : fieldParse passwordChecks f.password = Except.ok p)
    (hc : fieldParse passwordChecks f.confirmPassword = Except.ok c) :
    credBase f = Except.ok ⟨u, e, p, c⟩ := by
  unfold credBase
  rw [hu, he, hp, hc]

/-- C5: for a well-formed email address with no matching stored user — whether
the lookup store answers normally or its query throws — `authenticate` returns
the invalid-credentials state (it never propagates a lookup exception), and
`getUser` itself returns "not found" (`none`) when the query fails. -/
theorem C5_no_user_invalid_credentials (users : List UserRec)
    (compare : String → String → Bool) (email : String) (password : Option String)
    (e : String) (hvalid : isValidEmail email = true)
    (hnone : usersWithEmail users email = []) :
    runAuthenticate (DbState.ok users) compare ⟨some email, password⟩
      = AuthenticateResult.returns
          (some { message := some "Invalid credentials", email := some email })
    ∧ runAuthenticate (DbState.failing e) compare ⟨some email, password⟩
      = AuthenticateResult.returns
          (some { message := some "Invalid credentials", email := some email })
    ∧ getUser (DbState.failing e) email = none := by
  have hsc : ∀ db, getUser db email = none →
      signInCredentials db compare (some email) password
        = some (JsError.authError "CredentialsSignin") := by
    intro db hg
    cases password with
    | none => simp [signInCredentials, authorizeUser, signInSchemaParse]
    | some p => simp [signInCredentials, authorizeUser, signInSchemaParse, hvalid, hg]
  have hok : getUser (DbState.ok users) email = none := by
    simp [getUser, hnone]
  have hfail : getUser (DbState.failing e) email = none := by
    simp [getUser]
  refine ⟨?_, ?_, hfail⟩
  · simp [runAuthenticate, hsc _ hok, authenticate, parseEmailField, hvalid]
  · simp [runAuthenticate, hsc _ hfail, authenticate, parseEmailField, hvalid]

theorem C5_no_user_invalid_credentials_witness :
    runAuthenticate (DbState.ok []) (fun _ _ => false) ⟨some "a@b.co", some "pw"⟩
      = AuthenticateResult.returns
          (some { message := some "Invalid credentials", email := some "a@b.co" })
    ∧ runAuthenticate (DbState.failing "down") (fun _ _ => false)
        ⟨some "a@b.co", some "pw"⟩
      = AuthenticateResult.returns
          (some { message := some "Invalid credentials", email := some "a@b.co" })
    ∧ getUser (DbState.failing "down") "a@b.co" = none :=
  C5_no_user_invalid_credentials [] (fun _ _ => false) "a@b.co" (some "pw") "down"
    (by decide) rfl

/-- C6 (counterexample): an error that is not an `AuthError` — here a thrown
`"boom"` — together with a malformed submitted email is converted into the
returned invalid-email state instead of being re-raised, refuting the claim
that every error of an unrecognized type is re-raised to the caller. -/
theorem C6_counterexample :
    authenticate (some (JsError.other "boom")) ⟨some "notanemail", some "pw"⟩
      = AuthenticateResult.returns
          (some { message := some "Invalid email", email := none }) := by
  decide

/-- C6 (amended): `authenticate` classifies errors raised during sign-in with
the email-format check first: a malformed submitted email yields the
invalid-email state for every error; with a well-formed email, a
`CredentialsSignin` auth error yields the invalid-credentials state, any other
auth error yields the valid-credentials-but-failed state, and an error of an
unrecognized type is re-raised; the three messages are pairwise distinct. -/
theorem C6_error_classification (err : JsError) (f : AuthForm) :
    (parseEmailField f.email = none →
      authenticate (some err) f
        = AuthenticateResult.returns
            (some { message := some "Invalid email", email := none }))
    ∧ (∀ u, parseEmailField f.email = some u →
        (err = JsError.authError "CredentialsSignin" →
          authenticate (some err) f
            = AuthenticateResult.returns
                (some { message := some "Invalid credentials", email := some u }))
        ∧ (∀ t, err = JsError.authError t → t ≠ "CredentialsSignin" →
            authenticate (some err) f
              = AuthenticateResult.returns
                  (some { message := some "Valid credentials, but failed to authenticate",
                          email := some u }))
        ∧ (∀ e, err = JsError.other e →
            authenticate (some err) f = AuthenticateResult.throws (JsError.other e)))
    ∧ ("Invalid email" ≠ "Invalid credentials"
        ∧ "Invalid email" ≠ "Valid credentials, but failed to authenticate"
        ∧ "Invalid credentials" ≠ "Valid credentials, but failed to authenticate") := by
  refine ⟨?_, ?_, by decide⟩
  · intro h
    simp [authenticate, h]
  · intro u hu
    refine ⟨?_, ?_, ?_⟩
    · rintro rfl
      simp [authenticate, hu]
    · rintro t rfl ht
      simp [authenticate, hu, ht]
    · rintro e rfl
      simp [authenticate, hu]

theorem C6_error_classification_witness :
    authenticate (some (JsError.authError "CredentialsSignin"))
        ⟨some "a@b.co", some "pw"⟩
      = AuthenticateResult.returns
          (some { message := some "Invalid credentials", email := some "a@b.co" }) :=
  ((C6_error_classification (JsError.authError "CredentialsSignin")
      ⟨some "a@b.co", some "pw"⟩).2.1 "a@b.co" (by decide)).1 rfl

/-- C7 (counterexample): in the submission with username `"bob"`, email
`"a@b.co"`, password `"abc"` and confirmation `"Abcdef1!"`, the passwords
differ — the cross-field mismatch violation holds — yet the returned
field-error mapping has an empty `confirmPassword` entry (the refinement never
ran because the password field itself failed), refuting the claim that the
mapping contains every violation present in the submission. -/
theorem C7_counterexample :
    credSchema ⟨some "bob", some "a@b.co", some "abc", some "Abcdef1!"⟩
      = Except.error ⟨[], [], [msgPwMin, msgPwUpper, msgPwDigit, msgPwSpecial], []⟩
    ∧ (some "abc" : Option String) ≠ some "Abcdef1!" := by
  decide

/-- C7 (amended): validation does not short-circuit across independent fields —
a failed parse returns either exactly the independent per-field violation
lists of all four fields together, or the cross-field mismatch attached to
`confirmPassword`; the mismatch case is exactly the one where every individual
field check passed and the two passwords differ. -/
theorem C7_no_field_short_circuit (f : CredForm) (errs : CredFieldErrors)
    (h : credSchema f = Except.error errs) :
    (errs = ⟨fieldErrsOf usernameChecks f.username, fieldErrsOf emailChecks f.email,
             fieldErrsOf passwordChecks f.password,
             fieldErrsOf passwordChecks f.confirmPassword⟩
      ∨ errs = ⟨[], [], [], [msgPwMismatch]⟩)
    ∧ (∀ u e p c, fieldParse usernameChecks f.username = Except.ok u →
        fieldParse emailChecks f.email = Except.ok e →
        fieldParse passwordChecks f.password = Except.ok p →
        fieldParse passwordChecks f.confirmPassword = Except.ok c →
        p ≠ c ∧ errs = ⟨[], [], [], [msgPwMismatch]⟩) := by
  unfold credSchema at h
  cases hb : credBase f with
  | error e2 =>
    rw [hb] at h
    injection h with h2
    subst h2
    refine ⟨Or.inl (credBase_error_eq hb), ?_⟩
    intro u e p c hu he hp hc
    have hcontra := (credBase_ok_of_fields hu he hp hc).symm.trans hb
    exact Except.noConfusion hcontra
  | ok d =>
    rw [hb] at h
    have h2 : (if d.password = d.confirmPassword then Except.ok d
        else Except.error (⟨[], [], [], [msgPwMismatch]⟩ : CredFieldErrors))
        = Except.error errs := h
    by_cases hpc : d.password = d.confirmPassword
    · rw [if_pos hpc] at h2
      exact Except.noConfusion h2
    · rw [if_neg hpc] at h2
      injection h2 with h3
      subst h3
      refine ⟨Or.inr rfl, ?_⟩
      intro u e p c hu he hp hc
      have hd := credBase_ok_of_fields hu he hp hc
      rw [hb] at hd
      injection hd with hd2
      subst hd2
      exact ⟨hpc, rfl⟩

theorem C7_no_field_short_circuit_witness :
    ("Short1!x" : String) ≠ "Different2!x"
    ∧ (⟨[], [], [], [msgPwMismatch]⟩ : CredFieldErrors)
        = ⟨[], [], [], [msgPwMismatch]⟩ :=
  ⟨((C7_no_field_short_circuit
        ⟨some "bob", some "a@b.co", some "Short1!x", some "Different2!x"⟩
        ⟨[], [], [], [msgPwMismatch]⟩ (by decide)).2 "bob" "a@b.co" "Short1!x"
        "Different2!x" (by decide) (by decide) (by decide) (by decide)).1,
   rfl⟩

/-- C8: a registration submission whose password and confirmation differ while
each individually passes every length and character-class rule returns the
mismatch violation attached to `confirmPassword` alone — the `password` entry
(and every other entry) of the errors map is empty — and no statement is
issued. -/
theorem C8_mismatch_attached_to_confirm (hash : String → String) (db : DbOutcome)
    (u e p c : String)
    (h1 : usernameChecks u = []) (h2 : emailChecks e = [])
    (h3 : passwordChecks p = []) (h4 : passwordChecks c = []) (hne : p ≠ c) :
    (addUser hash ⟨some u, some e, some p, some c⟩ db).errors
      = some ⟨[], [], [], [msgPwMismatch]⟩
    ∧ (addUser hash ⟨some u, some e, some p, some c⟩ db).statements = [] := by
  have hu : fieldParse usernameChecks (some u) = Except.ok u := by
    simp [fieldParse, h1]
  have he : fieldParse emailChecks (some e) = Except.ok e := by
    simp [fieldParse, h2]
  have hp : fieldParse passwordChecks (some p) = Except.ok p := by
    simp [fieldParse, h3]
  have hc : fieldParse passwordChecks (some c) = Except.ok c := by
    simp [fieldParse, h4]
  have hcb : credBase ⟨some u, some e, some p, some c⟩ = Except.ok ⟨u, e, p, c⟩ :=
    credBase_ok_of_fields hu he hp hc
  have hcs : credSchema ⟨some u, some e, some p, some c⟩
      = Except.error ⟨[], [], [], [msgPwMismatch]⟩ := by
    simp only [credSchema, hcb]
    rw [if_neg hne]
  simp [addUser, hcs]

theorem C8_mismatch_attached_to_confirm_witness :
    (addUser (fun s => s)
        ⟨some "bob", some "a@b.co", some "Abcdef1!", some "Abcdef2!"⟩
        DbOutcome.ok).errors = some ⟨[], [], [], [msgPwMismatch]⟩
    ∧ (addUser (fun s => s)
        ⟨some "bob", some "a@b.co", some "Abcdef1!", some "Abcdef2!"⟩
        DbOutcome.ok).statements = [] :=
  C8_mismatch_attached_to_confirm (fun s => s) DbOutcome.ok
    "bob" "a@b.co" "Abcdef1!" "Abcdef2!"
    (by decide) (by decide) (by decide) (by decide) (by decide)

/-- C9: `deleteInvoice` issues its single delete statement for every
identifier with no validation; on storage success it returns nothing,
invalidates the listing cache and performs no redirect; on storage failure it
returns the plain message string embedding the error text and performs
neither effect. -/
theorem C9_delete_behaviour (id : String) (db : DbOutcome) :
    (deleteInvoice id db).statements = [SqlStatement.deleteInvoice id]
    ∧ (deleteInvoice id DbOutcome.ok).result = none
    ∧ (deleteInvoice id DbOutcome.ok).revalidated = ["/dashboard/invoices"]
    ∧ (deleteInvoice id DbOutcome.ok).redirectedTo = none
    ∧ ∀ e, (deleteInvoice id (DbOutcome.err e)).result
          = some ("Failed to Delete Invoice. Database error: " ++ e)
        ∧ (deleteInvoice id (DbOutcome.err e)).revalidated = []
        ∧ (deleteInvoice id (DbOutcome.err e)).redirectedTo = none := by
  cases db <;> simp [deleteInvoice]

/-- C10: `CreateInvoice` and `UpdateInvoice` are the same omission of the
shared form schema, so the create and update handlers fail validation on
exactly the same inputs and return identical field-error mappings. -/
theorem C10_create_update_validation_agree (f : InvoiceForm) :
    CreateInvoice f = UpdateInvoice f
    ∧ ∀ today id db,
        (createInvoice today f db).errors = (updateInvoice id f db).errors
        ∧ ((createInvoice today f db).errors = none
            ↔ (updateInvoice id f db).errors = none) := by
  refine ⟨rfl, ?_⟩
  intro today id db
  cases h : formSchemaOmitIdDate f <;> cases db <;>
    simp [createInvoice, updateInvoice, CreateInvoice, UpdateInvoice, h]
